import Mathlib

/-!
Verification of the token-issuance and refresh-rotation routes of
`dispatcher/backend/src/routes/auth/__init__.py`.

The handlers are embedded as pure Lean functions over an explicit database
state.  Flask's `request` is passed in as explicit fields, `getnow()` is a
`now : Nat` parameter, and the random refresh-token string produced by the
OAuth2 collaborator is passed in as a `fresh : String` parameter.  Each
handler body returns the result of the request together with the session
state at exit; the route wrappers model `Session.begin()`, which commits
the session state on success and rolls it back (restoring the pre-call
state) when an exception escapes.
-/

namespace Zimfarm

/-- A row of the user table (`db.models.User`): unique id, unique
username, opaque password hash. -/
structure User where
  id : Nat
  username : String
  password_hash : String
deriving Repr, DecidableEq

/-- A row of the refresh-token table (`db.models.Refreshtoken`): opaque
unique token string, owning user id, absolute expire time. -/
structure Refreshtoken where
  token : String
  user_id : Nat
  expire_time : Nat
deriving Repr, DecidableEq

/-- The shared persistent store: the user table and the refresh-token
table. -/
structure DBState where
  users : List User
  tokens : List Refreshtoken
deriving Repr, DecidableEq

/-- Failure outcomes of the auth routes: `BadRequest` (HTTP 400),
`Unauthorized` (HTTP 401), and the uncaught Python `TypeError` raised by
the membership test `"..." in request.content_type` when the request
carries no Content-Type header (`request.content_type` is `None`). -/
inductive AuthError where
  | badRequest (msg : String)
  | unauthorized (msg : String)
  | typeError
deriving Repr, DecidableEq

/-- The JSON body of a successful token response together with the two
headers the handlers set explicitly.  The body has exactly the four
fields built by the source (`access_token`, `token_type`, `expires_in`,
`refresh_token`). -/
structure TokenResponse where
  access_token : String
  token_type : String
  expires_in : Nat
  refresh_token : String
  headers : List (String × String)
deriving Repr, DecidableEq

/-- Modelled from the spec: the Access Token Codec
(`utils.token.AccessToken.encode_db`) is not under the source tree; per
the spec it mints a signed, self-contained token string embedding the
user's id.  Only the returned string is observable to the routes. -/
def AccessToken.encode_db (u : User) : String :=
  "signed." ++ toString u.id

/-- Modelled from the spec: `AccessToken.get_expiry` is not under the
source tree; per the spec it computes the token's remaining validity in
integer seconds, which the routes place in the `expires_in` field. -/
def AccessToken.get_expiry (_token : String) : Nat :=
  3600

/-- Modelled from the spec: the fixed TTL the Refresh Token Store adds to
the current time when persisting a new refresh-token row. -/
def refreshTokenTTL : Nat := 2592000

/-- Modelled from the spec: `OAuth2.generate_refresh_token(user_id,
session)` is not under the source tree; per the spec it generates a
cryptographically random opaque string, persists a row with expire time a
fixed TTL from now, and returns the string.  The random string is
supplied as the `fresh` argument. -/
def generate_refresh_token (user_id : Nat) (session : DBState) (fresh : String) (now : Nat) :
    String × DBState :=
  (fresh,
   { session with
       tokens := session.tokens ++
         [{ token := fresh, user_id := user_id, expire_time := now + refreshTokenTTL }] })

/-- Modelled from the spec: `werkzeug.security.check_password_hash`, the
opaque verify(plaintext, stored-hash) capability.  Modelled as an
injective tagging scheme so that it is executable on concrete inputs. -/
def check_password_hash (pwhash : String) (password : String) : Bool :=
  pwhash == "hash:" ++ password

/-- Whether the character list `needle` begins the character list
`hay`. -/
def listStartsWith : List Char → List Char → Bool
  | [], _ => true
  | _ :: _, [] => false
  | a :: as, b :: bs => a == b && listStartsWith as bs

/-- Whether `needle` occurs contiguously inside `hay`. -/
def listHasSub (needle : List Char) : List Char → Bool
  | [] => listStartsWith needle []
  | hay@(_ :: rest) => listStartsWith needle hay || listHasSub needle rest

/-- Python's substring membership test `needle in haystack` on
strings. -/
def strIn (needle hay : String) : Bool :=
  listHasSub needle.toList hay.toList

/-- The parts of the Flask request that `_credentials_inner` reads: the
Content-Type header (absent means `request.content_type is None`), the
two form fields, and the two plain headers. -/
structure CredRequest where
  content_type : Option String
  form_username : Option String
  form_password : Option String
  header_username : Option String
  header_password : Option String
deriving Repr, DecidableEq

/-- Lines 31 to 36 of the source: username and password are read from the
form body when the Content-Type contains
"application/x-www-form-urlencoded" and from the request headers
otherwise.  `ct` is the present Content-Type; the absent case is handled
by the caller. -/
def credsOf (req : CredRequest) (ct : String) : Option String × Option String :=
  if strIn "application/x-www-form-urlencoded" ct then
    (req.form_username, req.form_password)
  else
    (req.header_username, req.header_password)

/-- The body of the `POST /auth/authorize` handler, `_credentials_inner`.
Returns the result together with the session state at exit.  When the
request has no Content-Type, the membership test on `None` raises
`TypeError` before any `BadRequest` or `Unauthorized` is reached. -/
def _credentials_inner (req : CredRequest) (now : Nat) (fresh : String) (session : DBState) :
    Except AuthError TokenResponse × DBState :=
  match req.content_type with
  | none => (.error .typeError, session)
  | some ct =>
    match credsOf req ct with
    | (some username, some password) =>
      match session.users.find? (fun u => u.username == username) with
      | none => (.error (.unauthorized "this user does not exist"), session)
      | some orm_user =>
        if check_password_hash orm_user.password_hash password then
          let access_token := AccessToken.encode_db orm_user
          let access_expires := AccessToken.get_expiry access_token
          let (refresh_token, session) := generate_refresh_token orm_user.id session fresh now
          (.ok { access_token := access_token, token_type := "bearer",
                 expires_in := access_expires, refresh_token := refresh_token,
                 headers := [("Cache-Control", "no-store"), ("Pragma", "no-cache")] },
           session)
        else
          (.error (.unauthorized "password does not match"), session)
    | _ => (.error (.badRequest "missing username or password"), session)

/-- The `credentials` route: runs `_credentials_inner` inside
`Session.begin()`, which commits the session on success and rolls it back
when an exception escapes. -/
def credentials (req : CredRequest) (now : Nat) (fresh : String) (st : DBState) :
    Except AuthError TokenResponse × DBState :=
  match _credentials_inner req now fresh st with
  | (.ok res, session) => (.ok res, session)
  | (.error e, _) => (.error e, st)

/-- The body of the `POST /auth/token` handler, `_refresh_token_inner`:
look up the presented token, reject it when absent or expired, re-check
the owning user, mint a new access and refresh token, delete the old row,
bulk-delete every row whose expire time has passed, and assemble the
response.  Returns the result together with the session state at
exit. -/
def _refresh_token_inner (old_token? : Option String) (now : Nat) (fresh : String)
    (session : DBState) : Except AuthError TokenResponse × DBState :=
  match old_token? with
  | none => (.error (.badRequest "missing refresh-token"), session)
  | some old_token =>
    match session.tokens.find? (fun r => r.token == old_token) with
    | none => (.error (.unauthorized "refresh-token invalid"), session)
    | some old_token_document =>
      if old_token_document.expire_time < now then
        (.error (.unauthorized "token expired"), session)
      else
        match session.users.find? (fun u => u.id == old_token_document.user_id) with
        | none => (.error (.unauthorized "user not found"), session)
        | some orm_user =>
          let access_token := AccessToken.encode_db orm_user
          let (refresh_token, session) := generate_refresh_token orm_user.id session fresh now
          let session := { session with tokens := session.tokens.erase old_token_document }
          let session := { session with
            tokens := session.tokens.filter (fun r => !decide (r.expire_time < now)) }
          (.ok { access_token := access_token, token_type := "bearer",
                 expires_in := AccessToken.get_expiry access_token,
                 refresh_token := refresh_token,
                 headers := [("Cache-Control", "no-store"), ("Pragma", "no-cache")] },
           session)

/-- The `refresh_token` route: runs `_refresh_token_inner` inside
`Session.begin()`, which commits the session on success and rolls it back
when an exception escapes. -/
def refresh_token (old_token? : Option String) (now : Nat) (fresh : String) (st : DBState) :
    Except AuthError TokenResponse × DBState :=
  match _refresh_token_inner old_token? now fresh st with
  | (.ok res, session) => (.ok res, session)
  | (.error e, _) => (.error e, st)

deriving instance DecidableEq for Except

/-- The refresh-token row persisted for a fresh token string. -/
def freshRow (f : String) (uid n : Nat) : Refreshtoken :=
  { token := f, user_id := uid, expire_time := n + refreshTokenTTL }

/-- The committed store after a successful rotation: fresh row persisted,
then the old row deleted, then expired rows bulk-collected. -/
def rotatedState (st : DBState) (row : Refreshtoken) (f : String) (uid n : Nat) : DBState :=
  { st with tokens :=
      (((st.tokens ++ [freshRow f uid n]).erase row).filter
        (fun r => !decide (r.expire_time < n))) }

/-! ## Concrete stores used by counterexamples and witnesses -/

/-- A store with user 7 and a refresh token whose expire time is the
instant 100. -/
def exActSt : DBState :=
  { users := [{ id := 7, username := "alice", password_hash := "hash:secret123" }],
    tokens := [{ token := "R1", user_id := 7, expire_time := 100 }] }

/-- A store with user 7 and a refresh token that expired at instant 10. -/
def exExpiredSt : DBState :=
  { users := [{ id := 7, username := "alice", password_hash := "hash:secret123" }],
    tokens := [{ token := "R1", user_id := 7, expire_time := 10 }] }

/-- A store holding only a long-expired refresh token and no user. -/
def exGcSt : DBState :=
  { users := [], tokens := [{ token := "OLD", user_id := 7, expire_time := 10 }] }

/-- A store with user 7, one live refresh token, and one expired row. -/
def exMixSt : DBState :=
  { users := [{ id := 7, username := "alice", password_hash := "hash:secret123" }],
    tokens := [{ token := "R1", user_id := 7, expire_time := 100 },
               { token := "OLD", user_id := 7, expire_time := 10 }] }

/-- The post-state after the witness rotation of "R1" in `exMixSt`. -/
def exMixPost : DBState :=
  { users := exMixSt.users,
    tokens := [{ token := "F", user_id := 7, expire_time := 2592050 }] }

/-- The response of the witness rotation of "R1" in `exMixSt`. -/
def exMixResp : TokenResponse :=
  { access_token := "signed.7", token_type := "bearer", expires_in := 3600,
    refresh_token := "F",
    headers := [("Cache-Control", "no-store"), ("Pragma", "no-cache")] }

/-- The empty store. -/
def exEmptySt : DBState := { users := [], tokens := [] }

/-- A login request with a non-form content type, so the credentials are
read from the headers; the user "ghost" is not stored anywhere. -/
def exGhostReq : CredRequest :=
  { content_type := some "text/plain", form_username := none, form_password := none,
    header_username := some "ghost", header_password := some "pw" }

/-- A login request whose password header is absent. -/
def exMissReq : CredRequest :=
  { content_type := some "text/plain", form_username := none, form_password := none,
    header_username := some "alice", header_password := none }

/-- A login request for "alice" with a wrong password. -/
def exBadPwReq : CredRequest :=
  { content_type := some "text/plain", form_username := none, form_password := none,
    header_username := some "alice", header_password := some "wrong" }

/-- A well-formed form-encoded login request for "alice". -/
def exFormReq : CredRequest :=
  { content_type := some "application/x-www-form-urlencoded; charset=utf-8",
    form_username := some "alice", form_password := some "secret123",
    header_username := none, header_password := none }

/-- A login request with no Content-Type header at all. -/
def exNoCtReq : CredRequest :=
  { content_type := none, form_username := some "alice", form_password := some "secret123",
    header_username := some "alice", header_password := some "secret123" }

/-- The post-state of the witness credential exchange on `exActSt`. -/
def exCredPost : DBState :=
  { users := exActSt.users,
    tokens := [{ token := "R1", user_id := 7, expire_time := 100 },
               { token := "F", user_id := 7, expire_time := 2592000 }] }

/-! ## Helper lemmas -/

/-- Every run of the refresh handler body either fails leaving the session
state untouched, or succeeds. -/
lemma refresh_inner_cases (o : Option String) (n : Nat) (f : String) (st : DBState) :
    (∃ e, _refresh_token_inner o n f st = (.error e, st)) ∨
    (∃ resp st', _refresh_token_inner o n f st = (.ok resp, st')) := by
  unfold _refresh_token_inner
  split
  · exact .inl ⟨_, rfl⟩
  · split
    · exact .inl ⟨_, rfl⟩
    · split
      · exact .inl ⟨_, rfl⟩
      · split
        · exact .inl ⟨_, rfl⟩
        · exact .inr ⟨_, _, rfl⟩

/-- A successful run of the route implies a successful run of the handler
body with the same result and post-state. -/
lemma refresh_token_ok_inv {o : Option String} {n : Nat} {f : String} {st : DBState}
    {resp : TokenResponse} {st' : DBState}
    (h : refresh_token o n f st = (.ok resp, st')) :
    _refresh_token_inner o n f st = (.ok resp, st') := by
  unfold refresh_token at h
  split at h
  · next heq =>
      simp only [Prod.mk.injEq, Except.ok.injEq] at h
      rwa [h.1, h.2] at heq
  · next heq => simp at h

/-- Inversion of a successful run of the refresh handler body: the
presented token was found, unexpired, its owner exists, and the result and
post-state are the ones built on lines 106 to 126 of the source. -/
lemma refresh_inner_ok_inv {o : Option String} {n : Nat} {f : String} {st : DBState}
    {resp : TokenResponse} {st' : DBState}
    (h : _refresh_token_inner o n f st = (.ok resp, st')) :
    ∃ T row u, o = some T ∧
      st.tokens.find? (fun r => r.token == T) = some row ∧
      ¬ row.expire_time < n ∧
      st.users.find? (fun x => x.id == row.user_id) = some u ∧
      resp = { access_token := AccessToken.encode_db u, token_type := "bearer",
               expires_in := AccessToken.get_expiry (AccessToken.encode_db u),
               refresh_token := f,
               headers := [("Cache-Control", "no-store"), ("Pragma", "no-cache")] } ∧
      st' = rotatedState st row f u.id n := by
  unfold _refresh_token_inner at h
  split at h
  · simp at h
  · next T =>
    split at h
    · simp at h
    · next row hfind =>
      split at h
      · simp at h
      · next hexp =>
        split at h
        · simp at h
        · next u huser =>
          simp only [generate_refresh_token, Prod.mk.injEq, Except.ok.injEq] at h
          exact ⟨T, row, u, rfl, hfind, hexp, huser, h.1.symm,
            h.2.symm.trans (by simp [rotatedState, freshRow])⟩

/-- An expired-but-present token makes the route fail with "token expired"
and roll the session back. -/
lemma refresh_token_expired (st : DBState) (T f : String) (n : Nat) (row : Refreshtoken)
    (hfind : st.tokens.find? (fun r => r.token == T) = some row)
    (hexp : row.expire_time < n) :
    refresh_token (some T) n f st = (.error (.unauthorized "token expired"), st) := by
  simp [refresh_token, _refresh_token_inner, hfind, hexp]

/-- A successful run of the credentials handler body returns the envelope
built on lines 58 to 67 of the source, for the looked-up user. -/
lemma creds_inner_ok_inv {req : CredRequest} {n : Nat} {f : String} {st : DBState}
    {resp : TokenResponse} {st' : DBState}
    (h : _credentials_inner req n f st = (.ok resp, st')) :
    ∃ u, resp = { access_token := AccessToken.encode_db u, token_type := "bearer",
                  expires_in := AccessToken.get_expiry (AccessToken.encode_db u),
                  refresh_token := f,
                  headers := [("Cache-Control", "no-store"), ("Pragma", "no-cache")] } := by
  unfold _credentials_inner at h
  split at h
  · simp at h
  · next ct =>
    split at h
    · next username password =>
      split at h
      · simp at h
      · next orm_user hfound =>
        split at h
        · simp only [generate_refresh_token, Prod.mk.injEq, Except.ok.injEq] at h
          exact ⟨orm_user, h.1.symm⟩
        · simp at h
    · simp at h

/-! ## C3 -/

/-- C3: counterexample. The stored token "R1" has expire time exactly the
current time 100 — at, not before, the current time — yet the refresh
exchange succeeds instead of failing with "token expired", because the
source compares with strict `expire_time < getnow()`. -/
theorem C3_counterexample :
    ({ token := "R1", user_id := 7, expire_time := 100 } : Refreshtoken) ∈ exActSt.tokens ∧
    (100 : Nat) ≤ 100 ∧
    (refresh_token (some "R1") 100 "R2" exActSt).1 ≠
      .error (.unauthorized "token expired") ∧
    (refresh_token (some "R1") 100 "R2" exActSt).1 =
      .ok { access_token := "signed.7", token_type := "bearer", expires_in := 3600,
            refresh_token := "R2",
            headers := [("Cache-Control", "no-store"), ("Pragma", "no-cache")] } :=
  ⟨by decide, by decide, by decide, by decide⟩

/-- C3 (amended): a stored refresh token is rejected with Unauthorized
"token expired" when its expire time is strictly before the current time;
a token whose expire time equals the current time is not rejected as
expired (that case is the counterexample above). -/
theorem C3_expired_strictly_before (st : DBState) (T f : String) (n : Nat)
    (row : Refreshtoken)
    (hfind : st.tokens.find? (fun r => r.token == T) = some row)
    (hexp : row.expire_time < n) :
    refresh_token (some T) n f st = (.error (.unauthorized "token expired"), st) :=
  refresh_token_expired st T f n row hfind hexp

/-- Witness for C3: the expired token "R1" (expire time 10, now 100) is
rejected with "token expired". -/
theorem C3_witness :
    exExpiredSt.tokens.find? (fun r => r.token == "R1") =
      some { token := "R1", user_id := 7, expire_time := 10 } ∧
    (10 : Nat) < 100 ∧
    refresh_token (some "R1") 100 "R2" exExpiredSt =
      (.error (.unauthorized "token expired"), exExpiredSt) :=
  ⟨by decide, by decide,
   C3_expired_strictly_before exExpiredSt "R1" "R2" 100
     { token := "R1", user_id := 7, expire_time := 10 } (by decide) (by decide)⟩

/-! ## C9 -/

/-- C9: when the refresh exchange rejects an expired-but-present token,
the failing call does not delete the row: the store is unchanged and the
row is still present afterwards; its removal is deferred to the bulk
garbage-collection step of a later successful exchange (at whose current
time it is still expired). -/
theorem C9_expired_row_retained (st : DBState) (T f : String) (n : Nat)
    (row : Refreshtoken)
    (hfind : st.tokens.find? (fun r => r.token == T) = some row)
    (hexp : row.expire_time < n) :
    (refresh_token (some T) n f st).1 = .error (.unauthorized "token expired") ∧
    (refresh_token (some T) n f st).2 = st ∧
    row ∈ (refresh_token (some T) n f st).2.tokens ∧
    (∀ o2 n2 f2 resp2 st2, refresh_token o2 n2 f2 st = (.ok resp2, st2) →
      row.expire_time < n2 → row ∉ st2.tokens) := by
  have h := refresh_token_expired st T f n row hfind hexp
  refine ⟨by rw [h], by rw [h], by rw [h]; exact List.mem_of_find?_eq_some hfind, ?_⟩
  intro o2 n2 f2 resp2 st2 hok hlt hmem
  obtain ⟨T2, row2, u2, _, _, _, _, _, hst2⟩ := refresh_inner_ok_inv (refresh_token_ok_inv hok)
  subst hst2
  have h2 := (List.mem_filter.mp hmem).2
  simp at h2
  omega

/-- Witness for C9: the failing exchange on the expired token "R1" keeps
the row in place. -/
theorem C9_witness :
    (refresh_token (some "R1") 100 "R2" exExpiredSt).1 =
      .error (.unauthorized "token expired") ∧
    (refresh_token (some "R1") 100 "R2" exExpiredSt).2 = exExpiredSt ∧
    ({ token := "R1", user_id := 7, expire_time := 10 } : Refreshtoken) ∈
      (refresh_token (some "R1") 100 "R2" exExpiredSt).2.tokens := by
  have h := C9_expired_row_retained exExpiredSt "R1" "R2" 100
    { token := "R1", user_id := 7, expire_time := 10 } (by decide) (by decide)
  exact ⟨h.1, h.2.1, h.2.2.1⟩

/-! ## C5 -/

/-- C5: on every failure of the refresh exchange (missing header, unknown
token, expired token, or missing owning user) the store is left exactly as
it was: the handler body mutates nothing before any raise, and the
transaction wrapper rolls back on the raise. -/
theorem C5_failure_leaves_store_unchanged (o : Option String) (n : Nat) (f : String)
    (st : DBState) (e : AuthError)
    (h : (_refresh_token_inner o n f st).1 = .error e) :
    (_refresh_token_inner o n f st).2 = st ∧ (refresh_token o n f st).2 = st := by
  rcases refresh_inner_cases o n f st with ⟨e', heq⟩ | ⟨resp, st', heq⟩
  · constructor
    · rw [heq]
    · unfold refresh_token
      rw [heq]
  · rw [heq] at h
    simp at h

/-- Witness for C5: a failing exchange with an unknown token leaves the
store unchanged. -/
theorem C5_witness :
    (_refresh_token_inner (some "NOPE") 100 "F" exExpiredSt).1 =
      .error (.unauthorized "refresh-token invalid") ∧
    (_refresh_token_inner (some "NOPE") 100 "F" exExpiredSt).2 = exExpiredSt ∧
    (refresh_token (some "NOPE") 100 "F" exExpiredSt).2 = exExpiredSt := by
  have h := C5_failure_leaves_store_unchanged (some "NOPE") 100 "F" exExpiredSt
    (.unauthorized "refresh-token invalid") (by decide)
  exact ⟨by decide, h.1, h.2⟩

/-! ## C6 -/

/-- C6: counterexample. Garbage collection is not invoked on every refresh
exchange: a failing exchange (here, presenting an unknown token) deletes
nothing, so the long-expired row "OLD" is still present afterwards. -/
theorem C6_counterexample :
    (refresh_token (some "NOPE") 100 "F" exGcSt).1 =
      .error (.unauthorized "refresh-token invalid") ∧
    ({ token := "OLD", user_id := 7, expire_time := 10 } : Refreshtoken) ∈
      (refresh_token (some "NOPE") 100 "F" exGcSt).2.tokens ∧
    ({ token := "OLD", user_id := 7, expire_time := 10 } : Refreshtoken).expire_time < 100 :=
  ⟨by decide, by decide, by decide⟩

/-- C6 (amended): garbage collection is invoked on every successful
refresh exchange, so after a refresh exchange that succeeds every row
remaining in storage has an expire time at or after the current time. -/
theorem C6_gc_on_successful_exchange (o : Option String) (n : Nat) (f : String)
    (st : DBState) (resp : TokenResponse) (st' : DBState)
    (h : refresh_token o n f st = (.ok resp, st')) :
    ∀ r ∈ st'.tokens, n ≤ r.expire_time := by
  obtain ⟨T, row, u, _, _, _, _, _, hst'⟩ := refresh_inner_ok_inv (refresh_token_ok_inv h)
  subst hst'
  intro r hr
  have h2 := (List.mem_filter.mp hr).2
  simp at h2
  omega

/-- Witness for C6: the successful exchange of "R1" on a store also
holding the expired row "OLD"; the surviving row has expire time at or
after now. -/
theorem C6_witness :
    (50 : Nat) ≤
      ({ token := "F", user_id := 7, expire_time := 2592050 } : Refreshtoken).expire_time :=
  C6_gc_on_successful_exchange (some "R1") 50 "F" exMixSt
    { access_token := "signed.7", token_type := "bearer", expires_in := 3600,
      refresh_token := "F",
      headers := [("Cache-Control", "no-store"), ("Pragma", "no-cache")] }
    { users := exMixSt.users,
      tokens := [{ token := "F", user_id := 7, expire_time := 2592050 }] }
    (by decide)
    { token := "F", user_id := 7, expire_time := 2592050 } (by decide)

/-! ## C4 -/

/-- The freshly minted refresh-token row survives the delete of the old
row and the garbage-collection filter. -/
lemma fresh_mem_rotated (st : DBState) (row : Refreshtoken) (f : String)
    (uid n : Nat) (hrow : row ∈ st.tokens) :
    freshRow f uid n ∈ (rotatedState st row f uid n).tokens := by
  unfold rotatedState
  rw [List.erase_append_left _ hrow]
  refine List.mem_filter.mpr ⟨List.mem_append.mpr (.inr (List.mem_singleton.mpr rfl)), ?_⟩
  simp [freshRow]

/-- C4: consumption and minting commit atomically.  On a failing run the
post-state is the pre-state (the old token is not deleted), and on a
successful run the post-state contains the newly issued refresh-token
row — no reachable post-state has the old token deleted while no new
token was issued. -/
theorem C4_consume_atomic_with_mint (o : Option String) (n : Nat) (f : String)
    (st : DBState) :
    (∀ e, (refresh_token o n f st).1 = .error e → (refresh_token o n f st).2 = st) ∧
    (∀ resp st', refresh_token o n f st = (.ok resp, st') →
      ∃ r ∈ st'.tokens, r.token = resp.refresh_token) := by
  constructor
  · intro e h
    rcases refresh_inner_cases o n f st with ⟨e', heq⟩ | ⟨resp, st'', heq⟩
    · unfold refresh_token
      rw [heq]
    · unfold refresh_token at h
      rw [heq] at h
      simp at h
  · intro resp st' hok
    obtain ⟨T, row, u, hoT, hfind, hexp, huser, hresp, hst'⟩ :=
      refresh_inner_ok_inv (refresh_token_ok_inv hok)
    subst hst'
    subst hresp
    exact ⟨freshRow f u.id n,
      fresh_mem_rotated st row f u.id n (List.mem_of_find?_eq_some hfind), rfl⟩

/-- Witness for C4: a failing run (unknown token) leaves the store as it
was; a successful run stores a row carrying the returned refresh
token. -/
theorem C4_witness :
    (refresh_token (some "NOPE") 100 "F" exGcSt).2 = exGcSt ∧
    (∃ r ∈ exMixPost.tokens, r.token = exMixResp.refresh_token) :=
  ⟨(C4_consume_atomic_with_mint (some "NOPE") 100 "F" exGcSt).1
      (.unauthorized "refresh-token invalid") (by decide),
   (C4_consume_atomic_with_mint (some "R1") 50 "F" exMixSt).2
      exMixResp exMixPost (by decide)⟩

/-! ## C1 -/

/-- C1: rotation and single use.  For a stored token T, unexpired and
owned by an existing user — under the unique-token-column invariant of the
table and freshness of the replacement string — the refresh exchange
succeeds, the returned refresh token differs from T, no row with token T
remains in storage, and an immediately following second exchange
presenting T fails with Unauthorized "refresh-token invalid". -/
theorem C1_rotation_and_single_use (st : DBState) (T fresh fresh2 : String)
    (now now2 : Nat) (row : Refreshtoken) (u : User)
    (huniq : st.tokens.Pairwise (fun a b => a.token ≠ b.token))
    (hfind : st.tokens.find? (fun r => r.token == T) = some row)
    (hexp : ¬ row.expire_time < now)
    (huser : st.users.find? (fun x => x.id == row.user_id) = some u)
    (hfresh : fresh ≠ T) :
    ∃ resp st', refresh_token (some T) now fresh st = (.ok resp, st') ∧
      resp.refresh_token ≠ T ∧
      (∀ r ∈ st'.tokens, r.token ≠ T) ∧
      (refresh_token (some T) now2 fresh2 st').1 =
        .error (.unauthorized "refresh-token invalid") := by
  have hrowmem : row ∈ st.tokens := List.mem_of_find?_eq_some hfind
  have hrowtok : row.token = T := by simpa using List.find?_some hfind
  have hnodup : st.tokens.Nodup :=
    huniq.imp fun h heq => h (congrArg Refreshtoken.token heq)
  have hrun : refresh_token (some T) now fresh st =
      (.ok { access_token := AccessToken.encode_db u, token_type := "bearer",
             expires_in := AccessToken.get_expiry (AccessToken.encode_db u),
             refresh_token := fresh,
             headers := [("Cache-Control", "no-store"), ("Pragma", "no-cache")] },
       rotatedState st row fresh u.id now) := by
    simp [refresh_token, _refresh_token_inner, hfind, hexp, huser, generate_refresh_token,
      rotatedState, freshRow]
  have habs : ∀ r ∈ (rotatedState st row fresh u.id now).tokens, r.token ≠ T := by
    intro r hr hT
    have hr1 := (List.mem_filter.mp hr).1
    rw [List.erase_append_left _ hrowmem] at hr1
    rcases List.mem_append.mp hr1 with h1 | h2
    · have hrne : r ≠ row := (hnodup.mem_erase_iff.mp h1).1
      have hrmem : r ∈ st.tokens := (hnodup.mem_erase_iff.mp h1).2
      have hsymm : Symmetric (fun a b : Refreshtoken => a.token ≠ b.token) :=
        fun _ _ h hba => h hba.symm
      have hne : r.token ≠ row.token :=
        List.Pairwise.forall hsymm huniq hrmem hrowmem hrne
      exact hne (hT.trans hrowtok.symm)
    · have hfr : r = freshRow fresh u.id now := by simpa using h2
      rw [hfr] at hT
      exact hfresh hT
  have hnone : (rotatedState st row fresh u.id now).tokens.find?
      (fun r => r.token == T) = none :=
    List.find?_eq_none.mpr fun x hx => by simpa using habs x hx
  refine ⟨_, _, hrun, hfresh, habs, ?_⟩
  simp [refresh_token, _refresh_token_inner, hnone]

/-- Witness for C1: rotating "R1" in a store with two distinct tokens;
the exchange succeeds, "R1" is gone, and replaying "R1" fails. -/
theorem C1_witness :
    exMixSt.tokens.Pairwise (fun a b => a.token ≠ b.token) ∧
    exMixSt.tokens.find? (fun r => r.token == "R1") =
      some { token := "R1", user_id := 7, expire_time := 100 } ∧
    ¬ (100 : Nat) < 50 ∧
    ("F" : String) ≠ "R1" ∧
    (∃ resp st', refresh_token (some "R1") 50 "F" exMixSt = (.ok resp, st') ∧
      resp.refresh_token ≠ "R1" ∧
      (∀ r ∈ st'.tokens, r.token ≠ "R1") ∧
      (refresh_token (some "R1") 60 "F2" st').1 =
        .error (.unauthorized "refresh-token invalid")) :=
  ⟨by decide, by decide, by decide, by decide,
   C1_rotation_and_single_use exMixSt "R1" "F" "F2" 50 60
     { token := "R1", user_id := 7, expire_time := 100 }
     { id := 7, username := "alice", password_hash := "hash:secret123" }
     (by decide) (by decide) (by decide) (by decide) (by decide)⟩

/-! ## C7 -/

/-- C7: counterexample. For an unknown username the source raises
Unauthorized "this user does not exist", not "user does not exist" as the
claim words it. -/
theorem C7_counterexample :
    (_credentials_inner exGhostReq 0 "F" exEmptySt).1 =
      .error (.unauthorized "this user does not exist") ∧
    (_credentials_inner exGhostReq 0 "F" exEmptySt).1 ≠
      .error (.unauthorized "user does not exist") :=
  ⟨by decide, by decide⟩

/-- C7 (amended): the credential exchange fails with BadRequest "missing
username or password" when either credential is absent from where the
request supplies them, with Unauthorized "this user does not exist" (the
source's wording) when no user with the given username is stored, and
with Unauthorized "password does not match" when the user exists but the
password does not verify against the stored hash. -/
theorem C7_credential_error_paths (req : CredRequest) (ct : String) (n : Nat) (f : String)
    (st : DBState) (un pw : String)
    (hct : req.content_type = some ct) :
    (((credsOf req ct).1 = none ∨ (credsOf req ct).2 = none) →
      (_credentials_inner req n f st).1 =
        .error (.badRequest "missing username or password")) ∧
    (credsOf req ct = (some un, some pw) →
      st.users.find? (fun u => u.username == un) = none →
      (_credentials_inner req n f st).1 =
        .error (.unauthorized "this user does not exist")) ∧
    (∀ u, credsOf req ct = (some un, some pw) →
      st.users.find? (fun x => x.username == un) = some u →
      check_password_hash u.password_hash pw = false →
      (_credentials_inner req n f st).1 =
        .error (.unauthorized "password does not match")) := by
  refine ⟨?_, ?_, ?_⟩
  · intro hmiss
    rcases hcr : credsOf req ct with ⟨u?, p?⟩
    rw [hcr] at hmiss
    rcases hmiss with h1 | h2
    · simp only at h1
      subst h1
      cases p? <;> simp [_credentials_inner, hct, hcr]
    · simp only at h2
      subst h2
      cases u? <;> simp [_credentials_inner, hct, hcr]
  · intro hcr hnone
    simp [_credentials_inner, hct, hcr, hnone]
  · intro u hcr hfound hbad
    simp [_credentials_inner, hct, hcr, hfound, hbad]

/-- Witness for C7: the three failure paths at concrete inputs. -/
theorem C7_witness :
    (_credentials_inner exMissReq 0 "F" exActSt).1 =
      .error (.badRequest "missing username or password") ∧
    (_credentials_inner exGhostReq 0 "F" exActSt).1 =
      .error (.unauthorized "this user does not exist") ∧
    (_credentials_inner exBadPwReq 0 "F" exActSt).1 =
      .error (.unauthorized "password does not match") :=
  ⟨(C7_credential_error_paths exMissReq "text/plain" 0 "F" exActSt "alice" "x"
      (by decide)).1 (by decide),
   (C7_credential_error_paths exGhostReq "text/plain" 0 "F" exActSt "ghost" "pw"
      (by decide)).2.1 (by decide) (by decide),
   (C7_credential_error_paths exBadPwReq "text/plain" 0 "F" exActSt "alice" "wrong"
      (by decide)).2.2
     { id := 7, username := "alice", password_hash := "hash:secret123" }
     (by decide) (by decide) (by decide)⟩

/-! ## C8 -/

/-- C8: every successful issuance — credential exchange or refresh
exchange — returns an envelope of the `TokenResponse` shape, whose exact
four body fields are `access_token`, `token_type`, `expires_in` and
`refresh_token`, with `token_type` equal to "bearer", and carries the
response headers Cache-Control: no-store and Pragma: no-cache. -/
theorem C8_envelope_and_headers (req : CredRequest) (o : Option String) (n n2 : Nat)
    (f f2 : String) (st st2 : DBState) :
    (∀ resp s, _credentials_inner req n f st = (.ok resp, s) →
      resp.token_type = "bearer" ∧
      ("Cache-Control", "no-store") ∈ resp.headers ∧
      ("Pragma", "no-cache") ∈ resp.headers) ∧
    (∀ resp s, refresh_token o n2 f2 st2 = (.ok resp, s) →
      resp.token_type = "bearer" ∧
      ("Cache-Control", "no-store") ∈ resp.headers ∧
      ("Pragma", "no-cache") ∈ resp.headers) := by
  constructor
  · intro resp s h
    obtain ⟨u, hresp⟩ := creds_inner_ok_inv h
    subst hresp
    exact ⟨rfl, by simp, by simp⟩
  · intro resp s h
    obtain ⟨T, row, u, _, _, _, _, hresp, _⟩ := refresh_inner_ok_inv (refresh_token_ok_inv h)
    subst hresp
    exact ⟨rfl, by simp, by simp⟩

/-- Witness for C8: a concrete successful credential exchange and a
concrete successful refresh exchange, both yielding the bearer envelope
with the two no-cache headers. -/
theorem C8_witness :
    (exMixResp.token_type = "bearer" ∧
     ("Cache-Control", "no-store") ∈ exMixResp.headers ∧
     ("Pragma", "no-cache") ∈ exMixResp.headers) ∧
    (exMixResp.token_type = "bearer" ∧
     ("Cache-Control", "no-store") ∈ exMixResp.headers ∧
     ("Pragma", "no-cache") ∈ exMixResp.headers) :=
  ⟨(C8_envelope_and_headers exFormReq (some "R1") 0 50 "F" "F" exActSt exMixSt).1
      exMixResp exCredPost (by decide),
   (C8_envelope_and_headers exFormReq (some "R1") 0 50 "F" "F" exActSt exMixSt).2
      exMixResp exMixPost (by decide)⟩

/-! ## C10 -/

/-- C10: the credential exchange reads username and password from the
form body exactly when the Content-Type contains
"application/x-www-form-urlencoded" and from the request headers
otherwise; a request with no Content-Type at all hits the Python
`TypeError` of the membership test on `None`, so neither a BadRequest nor
an Unauthorized can be produced for it. -/
theorem C10_content_type_dispatch (req : CredRequest) (n : Nat) (f : String)
    (st : DBState) (ct : String) :
    (req.content_type = none →
      (_credentials_inner req n f st).1 = .error .typeError ∧
      (∀ msg, (_credentials_inner req n f st).1 ≠ .error (.badRequest msg)) ∧
      (∀ msg, (_credentials_inner req n f st).1 ≠ .error (.unauthorized msg))) ∧
    (strIn "application/x-www-form-urlencoded" ct = true →
      credsOf req ct = (req.form_username, req.form_password)) ∧
    (strIn "application/x-www-form-urlencoded" ct = false →
      credsOf req ct = (req.header_username, req.header_password)) := by
  refine ⟨?_, ?_, ?_⟩
  · intro h
    have h1 : (_credentials_inner req n f st).1 = .error .typeError := by
      simp [_credentials_inner, h]
    exact ⟨h1, fun msg => by rw [h1]; simp, fun msg => by rw [h1]; simp⟩
  · intro h
    simp [credsOf, h]
  · intro h
    simp [credsOf, h]

/-- Witness for C10: a request without Content-Type hits the type error;
a form-encoded request reads the form fields; a plain-text request reads
the headers. -/
theorem C10_witness :
    (_credentials_inner exNoCtReq 0 "F" exActSt).1 = .error .typeError ∧
    credsOf exFormReq "application/x-www-form-urlencoded; charset=utf-8" =
      (some "alice", some "secret123") ∧
    credsOf exGhostReq "text/plain" = (some "ghost", some "pw") :=
  ⟨((C10_content_type_dispatch exNoCtReq 0 "F" exActSt "x").1 rfl).1,
   Eq.trans ((C10_content_type_dispatch exFormReq 0 "F" exActSt
      "application/x-www-form-urlencoded; charset=utf-8").2.1 (by decide)) (by decide),
   Eq.trans ((C10_content_type_dispatch exGhostReq 0 "F" exActSt
      "text/plain").2.2 (by decide)) (by decide)⟩

end Zimfarm
